import Mathlib

/-!
Shallow embedding of the reservation-wizard Telegram bot (`src/main.py`).

The per-user conversational state (the global dict `available_time_slots`),
the SQLite `reservations` table, the outbound messages and the
`register_next_step_handler` registrations are modelled explicitly in a
`World` record.  Handlers become functions `World → World` (or
`World → World × Option PyErr` when the Python code can raise), with the
chat id identified with the user id (private-chat deployment, as in the
bot's own `/panel` deep link).  Machine-level details of the transport
(Telegram, Flask, webhooks) are out of scope, as are wall-clock pauses
(`time.sleep`).
-/

/-- Digit characters as used by `int()` / `strptime` on ASCII input. -/
def digitVal (c : Char) : Option Nat :=
  if c = '0' then some 0
  else if c = '1' then some 1
  else if c = '2' then some 2
  else if c = '3' then some 3
  else if c = '4' then some 4
  else if c = '5' then some 5
  else if c = '6' then some 6
  else if c = '7' then some 7
  else if c = '8' then some 8
  else if c = '9' then some 9
  else none

/-- Inverse of `digitVal` on `0..9` (used to model `%Y`/`%m`/`%d`/`%H`/`%M`
formatting, which zero-pads with ASCII digits). -/
def digitChar (n : Nat) : Char :=
  if n = 0 then '0'
  else if n = 1 then '1'
  else if n = 2 then '2'
  else if n = 3 then '3'
  else if n = 4 then '4'
  else if n = 5 then '5'
  else if n = 6 then '6'
  else if n = 7 then '7'
  else if n = 8 then '8'
  else '9'

/-- ASCII whitespace stripped by Python's `str.strip()`. -/
def isPySpace (c : Char) : Bool :=
  match c with
  | ' ' => true
  | '\t' => true
  | '\n' => true
  | '\r' => true
  | '\x0b' => true
  | '\x0c' => true
  | _ => false

def pyStripList (l : List Char) : List Char :=
  ((l.dropWhile isPySpace).reverse.dropWhile isPySpace).reverse

/-- Python `str.strip()` (no argument): remove leading and trailing whitespace. -/
def pyStrip (s : String) : String :=
  String.mk (pyStripList s.toList)

/-- Digit run accepted by Python `int(str)`: nonempty digits, with single
underscores permitted strictly between digits. -/
def chunkOk : List Char → Bool
  | [] => false
  | [c] => (digitVal c).isSome
  | c :: '_' :: rest => (digitVal c).isSome && chunkOk rest
  | c :: rest => (digitVal c).isSome && chunkOk rest

/-- Numeric value of a digit run, skipping underscores (only meaningful when
`chunkOk` holds). -/
def natVal (l : List Char) : Nat :=
  l.foldl (fun acc c => match digitVal c with | some v => 10 * acc + v | none => acc) 0

/-- Python `int(s)` on a decimal string: optional surrounding whitespace,
optional sign, digits with underscore separators.  `none` models `ValueError`. -/
def pyInt (s : String) : Option Int :=
  match pyStripList s.toList with
  | '+' :: rest => if chunkOk rest then some (Int.ofNat (natVal rest)) else none
  | '-' :: rest => if chunkOk rest then some (-Int.ofNat (natVal rest)) else none
  | rest => if chunkOk rest then some (Int.ofNat (natVal rest)) else none

/-- Worker for `pyReplace`: scan the list, skipping `skip` characters that are
part of an already-matched occurrence of the pattern `p :: ps`. -/
def replAux (p : Char) (ps : List Char) : Nat → List Char → List Char
  | _, [] => []
  | k+1, _ :: rest => replAux p ps k rest
  | 0, c :: rest =>
    if (p :: ps).isPrefixOf (c :: rest) then replAux p ps ps.length rest
    else c :: replAux p ps 0 rest

/-- Python `s.replace(pat, "")` (every non-overlapping occurrence removed),
as used for `data.replace("time_", "")` and `data.replace("num_", "")`. -/
def pyReplace (s pat : String) : String :=
  match pat.toList with
  | [] => s
  | p :: ps => String.mk (replAux p ps 0 s.toList)

/-- Python `s.startswith(pre)`. -/
def pyStartswith (s pre : String) : Bool :=
  pre.toList.isPrefixOf s.toList

/-- Gregorian leap year, as in `datetime`. -/
def isLeapYear (y : Nat) : Bool :=
  y % 4 == 0 && (y % 100 != 0 || y % 400 == 0)

/-- Days in a month, as in `datetime`. -/
def daysInMonth (y m : Nat) : Nat :=
  if m = 2 then (if isLeapYear y then 29 else 28)
  else if m = 4 ∨ m = 6 ∨ m = 9 ∨ m = 11 then 30
  else 31

/-- Model of `datetime.strptime(s, "%Y-%m-%d")` restricted to the canonical
zero-padded 10-character form produced by `strftime('%Y-%m-%d')`:
returns the (year, month, day) triple, validating calendar ranges. -/
def parseDate (s : String) : Option (Nat × Nat × Nat) :=
  match s.toList with
  | [c0, c1, c2, c3, c4, c5, c6, c7, c8, c9] =>
    match digitVal c0, digitVal c1, digitVal c2, digitVal c3,
          digitVal c5, digitVal c6, digitVal c8, digitVal c9 with
    | some a, some b, some c, some d, some e, some f, some g, some h =>
      if c4 = '-' ∧ c7 = '-' then
        let y := 1000 * a + 100 * b + 10 * c + d
        let mo := 10 * e + f
        let da := 10 * g + h
        if 1 ≤ y ∧ 1 ≤ mo ∧ mo ≤ 12 ∧ 1 ≤ da ∧ da ≤ daysInMonth y mo then
          some (y, mo, da)
        else none
      else none
    | _, _, _, _, _, _, _, _ => none
  | _ => none

/-- Model of `datetime.strptime(s, "%H:%M")` restricted to the canonical zero-padded
5-character form produced by `strftime('%H:%M')`. -/
def parseTime (s : String) : Option (Nat × Nat) :=
  match s.toList with
  | [c0, c1, c2, c3, c4] =>
    match digitVal c0, digitVal c1, digitVal c3, digitVal c4 with
    | some a, some b, some c, some d =>
      if c2 = ':' then
        let h := 10 * a + b
        let mi := 10 * c + d
        if h ≤ 23 ∧ mi ≤ 59 then some (h, mi) else none
      else none
    | _, _, _, _ => none
  | _ => none

/-- A `datetime.datetime` value as built by `strptime("%Y-%m-%d %H:%M")`. -/
structure PyDateTime where
  year : Nat
  month : Nat
  day : Nat
  hour : Nat
  minute : Nat
deriving DecidableEq

/-- Model of `dt.strptime` on the combined date and time strings, split into its two
fields; `none` models `ValueError`. -/
def parseDateTime (ds ts : String) : Option PyDateTime :=
  match parseDate ds, parseTime ts with
  | some (y, m, d), some (h, mi) => some ⟨y, m, d, h, mi⟩
  | _, _ => none

/-- Model of `strftime` with format `%Y-%m-%d` (zero-padded). -/
def formatDate (y m d : Nat) : String :=
  String.mk [digitChar (y / 1000 % 10), digitChar (y / 100 % 10),
             digitChar (y / 10 % 10), digitChar (y % 10), '-',
             digitChar (m / 10 % 10), digitChar (m % 10), '-',
             digitChar (d / 10 % 10), digitChar (d % 10)]

/-- Model of `strftime` with format `%H:%M` (zero-padded). -/
def formatTime (h mi : Nat) : String :=
  String.mk [digitChar (h / 10 % 10), digitChar (h % 10), ':',
             digitChar (mi / 10 % 10), digitChar (mi % 10)]

/-- Calendar successor of a (year, month, day) triple; models adding
`timedelta(days=1)` to a `datetime` date. -/
def nextDay : Nat × Nat × Nat → Nat × Nat × Nat
  | (y, m, d) =>
    if d < daysInMonth y m then (y, m, d + 1)
    else if m < 12 then (y, m + 1, 1)
    else (y + 1, 1, 1)

/-- Model of `now + timedelta(days=n)` on the date component. -/
def addDays (n : Nat) (x : Nat × Nat × Nat) : Nat × Nat × Nat :=
  match n with
  | 0 => x
  | k + 1 => addDays k (nextDay x)

/-- Valid `datetime` date triple. -/
def validYmd : Nat × Nat × Nat → Prop
  | (y, m, d) => 1 ≤ y ∧ 1 ≤ m ∧ m ≤ 12 ∧ 1 ≤ d ∧ d ≤ daysInMonth y m

instance : DecidablePred validYmd := fun x =>
  match x with
  | (_, _, _) => by unfold validYmd; infer_instance

/-- Date formatting `strftime` applied to a date triple. -/
def formatYmd : Nat × Nat × Nat → String
  | (y, m, d) => formatDate y m d

/-- The callback tokens offered by `generate_date_selection_buttons()`:
7 buttons whose `callback_data` is `(now + timedelta(days=i)).strftime('%Y-%m-%d')`
for `i in range(7)`. -/
def generate_date_selection_buttons (today : Nat × Nat × Nat) : List String :=
  (List.range 7).map (fun i => formatYmd (addDays i today))

/-- The pending free-text continuation registered with
`bot.register_next_step_handler`. -/
inductive Handler where
  | fullName
  | numPeople
  | restaurantLink
  | notes
deriving DecidableEq

/-- Exceptions the Python code can raise in the modelled fragment. -/
inductive PyErr where
  | keyError
  | valueError
  | dbError
  | sendError
deriving DecidableEq

/-- One user's entry in `available_time_slots`: a Python dict whose keys are
set one at a time during the flow. -/
structure Session where
  date : Option String := none
  time : Option String := none
  full_name : Option String := none
  num_people : Option Int := none
  restaurant_link : Option String := none
  notes : Option String := none
  step : Option String := none
deriving DecidableEq

def emptySession : Session := {}

/-- A row of the `reservations` table. -/
structure Reservation where
  reservation_id : Nat
  user_id : Nat
  full_name : String
  restaurant_link : Option String
  num_people : Int
  date : String
  reservation_time : String
  notes : Option String
deriving DecidableEq

/-- Association-list lookup (Python `d[k]` / `k in d`). -/
def lookupKey (k : Nat) : List (Nat × α) → Option α
  | [] => none
  | (k', v) :: rest => if k' = k then some v else lookupKey k rest

/-- Association-list update (Python `d[k] = v`). -/
def setKey (k : Nat) (v : α) : List (Nat × α) → List (Nat × α)
  | [] => [(k, v)]
  | (k', v') :: rest => if k' = k then (k, v) :: rest else (k', v') :: setKey k v rest

/-- Association-list removal (Python `del d[k]`; removal of an absent key is
modelled as the identity, and the code only deletes guarded keys). -/
def delKey (k : Nat) : List (Nat × α) → List (Nat × α)
  | [] => []
  | (k', v') :: rest => if k' = k then delKey k rest else (k', v') :: delKey k rest

/-- Whole-program mutable state plus the observable outbound effects. -/
structure World where
  available_time_slots : List (Nat × Session) := []
  db : List Reservation := []
  nextId : Nat := 1
  sent : List (Nat × String) := []
  registered : List (Nat × Handler) := []
deriving DecidableEq

def initWorld : World := {}

def ADMIN_ID : Nat := 7994205774

def somethingWrongMsg : String :=
  "⚠️ Something went wrong. Please restart with /start."

def welcomeMsg : String :=
  "✨ Golden Fork Reservation ✨\nBook effortlessly. Save £50 instantly."

def panelMsg : String :=
  "✨ Golden Fork ✨\n\nClick below to start your reservation:"

def selectDateMsg : String :=
  "Please select the date for your reservation:"

def nameMsg : String :=
  "Please enter the name you would like the reservation under (first and surname):"

def peopleMsg : String :=
  "How many people will attend?"

def otherPeopleMsg : String :=
  "Please enter the number of people:"

def invalidNumberMsg : String :=
  "Please enter a valid number."

def linkMsg : String :=
  "Please paste the restaurant link:"

def notesPromptMsg : String :=
  "Any additional notes? (e.g., allergies, special requests)"

def customerMsg : String :=
  "Thank you for choosing Golden Fork! 🍽️\n\n💳 Once your payment is completed, we’ll reach out privately with a screenshot of your confirmed reservation — including the restaurant and time you selected.\n\n📍 At the restaurant, simply mention you booked through TheFork. You may also mention the Yums if you prefer, but restaurants usually apply them automatically.\n\n💸 The discount will be applied to your final bill. If it’s not, just kindly remind your waiter — sometimes they forget. Enjoy your meal!"

/-- The `confirmation_msg` f-string of `process_notes`. -/
def confirmationMsg (date timeStr full_name : String) (num_people : Int)
    (restaurant_link notes : Option String) : String :=
  "🌟 Reservation locked in!\n\n📅 Date: " ++ date ++ "\n⏰ Time: " ++ timeStr ++
  "\n🙍 Name: " ++ full_name ++ "\n👫 People: " ++ toString num_people ++
  "\n📍 Restaurant: " ++ restaurant_link.getD "No link" ++
  "\n📝 Notes: " ++ notes.getD "" ++
  "\n\nOur team will reach out shortly to arrange payment. We’ll be swift — and of course, you’re welcome to secure another table."

/-- The admin notification text (`"📩 New Reservation:\n\n" + confirmation_msg_admin`). -/
def adminMsg (date timeStr full_name : String) (num_people : Int)
    (restaurant_link notes : Option String)
    (full_name_telegram telegram_username : String) : String :=
  "📩 New Reservation:\n\n📅 Date: " ++ date ++ "\n⏰ Time: " ++ timeStr ++
  "\n🙍 Name: " ++ full_name ++ "\n👫 People: " ++ toString num_people ++
  "\n📍 Restaurant: " ++ restaurant_link.getD "No link" ++
  "\n📝 Notes: " ++ notes.getD "" ++
  "\n\n👤 Telegram: " ++ full_name_telegram ++ " (" ++ telegram_username ++ ")"

/-- Model of `save_reservation_to_db`: one `INSERT` into `reservations`; the
`AUTOINCREMENT` primary key is modelled by the `nextId` counter. -/
def save_reservation_to_db (user_id : Nat) (full_name : String) (num_people : Int)
    (rdt : PyDateTime) (restaurant_link notes : Option String) (w : World) : World :=
  { w with
    db := w.db ++ [{ reservation_id := w.nextId
                     user_id := user_id
                     full_name := full_name
                     restaurant_link := restaurant_link
                     num_people := num_people
                     date := formatDate rdt.year rdt.month rdt.day
                     reservation_time := formatTime rdt.hour rdt.minute
                     notes := notes }]
    nextId := w.nextId + 1 }

/-- Model of `send_welcome` (the `/start` handler): conditional `del` of the session,
`clear_step_handler_by_chat_id`, then the main-menu message. -/
def send_welcome (user_id : Nat) (w : World) : World :=
  { w with
    available_time_slots :=
      if (lookupKey user_id w.available_time_slots).isSome then
        delKey user_id w.available_time_slots
      else w.available_time_slots
    registered := delKey user_id w.registered
    sent := w.sent ++ [(user_id, welcomeMsg)] }

/-- Model of `send_panel` (the `/panel` handler): a single message. -/
def send_panel (user_id : Nat) (w : World) : World :=
  { w with sent := w.sent ++ [(user_id, panelMsg)] }

/-- Model of the `process_full_name` free-text step handler. -/
def process_full_name (user_id : Nat) (text : String) (w : World) : World :=
  match lookupKey user_id w.available_time_slots with
  | none => { w with sent := w.sent ++ [(user_id, somethingWrongMsg)] }
  | some s =>
    { w with
      available_time_slots :=
        setKey user_id { s with full_name := some (pyStrip text), step := some "num_people" }
          w.available_time_slots
      sent := w.sent ++ [(user_id, peopleMsg)] }

/-- Model of the `process_num_people` free-text step handler: on `ValueError` from `int`,
re-prompt and re-register itself; otherwise record and advance. -/
def process_num_people (user_id : Nat) (text : String) (w : World) : World :=
  match lookupKey user_id w.available_time_slots with
  | none => { w with sent := w.sent ++ [(user_id, somethingWrongMsg)] }
  | some s =>
    match pyInt (pyStrip text) with
    | none =>
      { w with
        sent := w.sent ++ [(user_id, invalidNumberMsg)]
        registered := setKey user_id Handler.numPeople w.registered }
    | some n =>
      { w with
        available_time_slots :=
          setKey user_id { s with num_people := some n, step := some "restaurant_link" }
            w.available_time_slots
        sent := w.sent ++ [(user_id, linkMsg)]
        registered := setKey user_id Handler.restaurantLink w.registered }

/-- Model of the `process_restaurant_link` free-text step handler. -/
def process_restaurant_link (user_id : Nat) (text : String) (w : World) : World :=
  match lookupKey user_id w.available_time_slots with
  | none => { w with sent := w.sent ++ [(user_id, somethingWrongMsg)] }
  | some s =>
    { w with
      available_time_slots :=
        setKey user_id { s with restaurant_link := some (pyStrip text), step := some "notes" }
          w.available_time_slots
      sent := w.sent ++ [(user_id, notesPromptMsg)]
      registered := setKey user_id Handler.notes w.registered }

/-- Outcomes of the fallible external calls made by `process_notes`: the DB
`INSERT` and the four `bot.send_message` calls, in program order.  `false`
models the call raising an exception. -/
structure NotesEffects where
  saveOk : Bool
  send1 : Bool
  send2 : Bool
  send3 : Bool
  send4 : Bool
deriving DecidableEq

def allOk : NotesEffects := ⟨true, true, true, true, true⟩

/-- Model of the `process_notes` final step handler: record trimmed notes, parse the
session's date and time, insert the reservation row, send the three customer
messages and the admin notification, then delete the session.  Any raising
call aborts the remainder, leaving the mutations already made. -/
def process_notes (user_id : Nat) (text : String) (tgFirstName : String)
    (tgLastName tgUsername : Option String) (eff : NotesEffects) (w : World) :
    World × Option PyErr :=
  match lookupKey user_id w.available_time_slots with
  | none => ({ w with sent := w.sent ++ [(user_id, somethingWrongMsg)] }, none)
  | some s =>
    let s1 := { s with notes := some (pyStrip text) }
    let w1 := { w with available_time_slots := setKey user_id s1 w.available_time_slots }
    match s1.date with
    | none => (w1, some PyErr.keyError)
    | some ds =>
      match s1.time with
      | none => (w1, some PyErr.keyError)
      | some ts =>
        match parseDateTime ds ts with
        | none => (w1, some PyErr.valueError)
        | some rdt =>
          match s1.full_name with
          | none => (w1, some PyErr.keyError)
          | some fn =>
            match s1.num_people with
            | none => (w1, some PyErr.keyError)
            | some np =>
              if eff.saveOk then
                let w2 := save_reservation_to_db user_id fn np rdt
                  s1.restaurant_link s1.notes w1
                let full_name_telegram := pyStrip (tgFirstName ++ " " ++ tgLastName.getD "")
                let telegram_username :=
                  match tgUsername with
                  | some u => if u = "" then "No username" else "@" ++ u
                  | none => "No username"
                if eff.send1 then
                  let w3 := { w2 with sent := w2.sent ++
                    [(user_id, confirmationMsg ds ts fn np s1.restaurant_link s1.notes)] }
                  if eff.send2 then
                    let w4 := { w3 with sent := w3.sent ++ [(user_id, customerMsg)] }
                    if eff.send3 then
                      let w5 := { w4 with sent := w4.sent ++ [(user_id, welcomeMsg)] }
                      if eff.send4 then
                        let w6 := { w5 with sent := w5.sent ++
                          [(ADMIN_ID, adminMsg ds ts fn np s1.restaurant_link s1.notes
                              full_name_telegram telegram_username)] }
                        ({ w6 with available_time_slots :=
                             delKey user_id w6.available_time_slots }, none)
                      else (w5, some PyErr.sendError)
                    else (w4, some PyErr.sendError)
                  else (w3, some PyErr.sendError)
                else (w2, some PyErr.sendError)
              else (w1, some PyErr.dbError)

/-- Model of `callback_handler`: dispatch on the callback token, as in the source.
Unguarded `available_time_slots[user_id]` accesses raise `KeyError` when the
session is absent; `int(choice)` raises `ValueError` on a non-integer. -/
def callback_handler (user_id : Nat) (data : String) (w : World) :
    World × Option PyErr :=
  if data = "reserve" then
    ({ w with
       available_time_slots :=
         if (lookupKey user_id w.available_time_slots).isSome then
           w.available_time_slots
         else setKey user_id emptySession w.available_time_slots
       sent := w.sent ++ [(user_id, selectDateMsg)] }, none)
  else if data.toList.contains '-' && data.length == 10 then
    match lookupKey user_id w.available_time_slots with
    | none => (w, some PyErr.keyError)
    | some s =>
      ({ w with
         available_time_slots :=
           setKey user_id { s with date := some data } w.available_time_slots
         sent := w.sent ++ [(user_id, "Please select a time for " ++ data ++ ":")] }, none)
  else if pyStartswith data "time_" then
    match lookupKey user_id w.available_time_slots with
    | none => (w, some PyErr.keyError)
    | some s =>
      let selected_time := pyReplace data "time_"
      ({ w with
         available_time_slots :=
           setKey user_id { s with time := some selected_time, step := some "full_name" }
             w.available_time_slots
         sent := w.sent ++ [(user_id, nameMsg)]
         registered := setKey user_id Handler.fullName w.registered }, none)
  else if pyStartswith data "num_" then
    let choice := pyReplace data "num_"
    if choice = "other" then
      match lookupKey user_id w.available_time_slots with
      | none => (w, some PyErr.keyError)
      | some s =>
        ({ w with
           available_time_slots :=
             setKey user_id { s with step := some "num_people" } w.available_time_slots
           sent := w.sent ++ [(user_id, otherPeopleMsg)]
           registered := setKey user_id Handler.numPeople w.registered }, none)
    else
      match pyInt choice with
      | none => (w, some PyErr.valueError)
      | some n =>
        match lookupKey user_id w.available_time_slots with
        | none => (w, some PyErr.keyError)
        | some s =>
          ({ w with
             available_time_slots :=
               setKey user_id { s with num_people := some n, step := some "restaurant_link" }
                 w.available_time_slots
             sent := w.sent ++ [(user_id, linkMsg)]
             registered := setKey user_id Handler.restaurantLink w.registered }, none)
  else (w, none)

/-- An inbound Telegram update: a callback query, or a text message (which
carries the sender identity fields read by `process_notes`, and the outcome
of the external calls should this message complete the wizard). -/
inductive Event where
  | callback (user_id : Nat) (data : String)
  | message (user_id : Nat) (body : String) (tgFirstName : String)
      (tgLastName tgUsername : Option String) (eff : NotesEffects)

/-- Update dispatch, following pyTelegramBotAPI: a registered next-step
handler for the chat consumes the message (it is popped before being run);
otherwise command handlers match; other texts are ignored.  Callback queries
always go to `callback_handler`. -/
def dispatch (e : Event) (w : World) : World × Option PyErr :=
  match e with
  | .callback uid data => callback_handler uid data w
  | .message uid body tgF tgL tgU eff =>
    match lookupKey uid w.registered with
    | some h =>
      let w0 := { w with registered := delKey uid w.registered }
      match h with
      | .fullName => (process_full_name uid body w0, none)
      | .numPeople => (process_num_people uid body w0, none)
      | .restaurantLink => (process_restaurant_link uid body w0, none)
      | .notes => process_notes uid body tgF tgL tgU eff w0
    | none =>
      if body = "/start" then (send_welcome uid w, none)
      else if body = "/panel" then (send_panel uid w, none)
      else (w, none)

/-- Run a sequence of updates from a starting world (exceptions propagate to
the webhook layer; the process-global state persists across them). -/
def runEvents (events : List Event) (w : World) : World :=
  events.foldl (fun acc e => (dispatch e acc).1) w

/-! ### Association-list lemmas -/

theorem lookupKey_setKey_self (k : Nat) (v : α) (l : List (Nat × α)) :
    lookupKey k (setKey k v l) = some v := by
  induction l with
  | nil => simp [setKey, lookupKey]
  | cons p rest ih =>
    obtain ⟨k', v'⟩ := p
    by_cases h : k' = k <;> simp [setKey, lookupKey, h, ih]

theorem lookupKey_setKey_ne (k k' : Nat) (v : α) (l : List (Nat × α)) (h : k ≠ k') :
    lookupKey k (setKey k' v l) = lookupKey k l := by
  have h' : k' ≠ k := Ne.symm h
  induction l with
  | nil => simp [setKey, lookupKey, h']
  | cons p rest ih =>
    obtain ⟨k'', v''⟩ := p
    by_cases h2 : k'' = k'
    · subst h2
      simp [setKey, lookupKey, h']
    · simp [setKey, lookupKey, h2, ih]

theorem lookupKey_delKey_self (k : Nat) (l : List (Nat × α)) :
    lookupKey k (delKey k l) = none := by
  induction l with
  | nil => simp [delKey, lookupKey]
  | cons p rest ih =>
    obtain ⟨k', v'⟩ := p
    by_cases h : k' = k <;> simp [delKey, lookupKey, h, ih]

theorem lookupKey_delKey_ne (k k' : Nat) (l : List (Nat × α)) (h : k ≠ k') :
    lookupKey k (delKey k' l) = lookupKey k l := by
  have h' : k' ≠ k := Ne.symm h
  induction l with
  | nil => simp [delKey, lookupKey]
  | cons p rest ih =>
    obtain ⟨k'', v''⟩ := p
    by_cases h2 : k'' = k'
    · subst h2
      simp [delKey, lookupKey, h', ih]
    · simp [delKey, lookupKey, h2, ih]

theorem delKey_of_lookupKey_none (k : Nat) (l : List (Nat × α))
    (h : lookupKey k l = none) : delKey k l = l := by
  induction l with
  | nil => simp [delKey]
  | cons p rest ih =>
    obtain ⟨k', v'⟩ := p
    by_cases h2 : k' = k
    · simp [lookupKey, h2] at h
    · simp [lookupKey, h2] at h
      simp [delKey, h2, ih h]

theorem setKey_setKey (k : Nat) (v v' : α) (l : List (Nat × α)) :
    setKey k v (setKey k v' l) = setKey k v l := by
  induction l with
  | nil => simp [setKey]
  | cons p rest ih =>
    obtain ⟨k'', v''⟩ := p
    by_cases h : k'' = k <;> simp [setKey, h, ih]

/-! ### Digit and round-trip lemmas -/

theorem digitVal_lt (c : Char) (v : Nat) (h : digitVal c = some v) : v < 10 := by
  unfold digitVal at h
  repeat' split at h
  all_goals first
    | (injection h with h; omega)
    | exact Option.noConfusion h

theorem digitChar_digitVal (c : Char) (v : Nat) (h : digitVal c = some v) :
    digitChar v = c := by
  unfold digitVal at h
  repeat' split at h
  all_goals first
    | exact Option.noConfusion h
    | (injection h with h; subst h; rename_i hc; subst hc; rfl)

theorem digitVal_digitChar (v : Nat) (h : v < 10) : digitVal (digitChar v) = some v := by
  interval_cases v <;> rfl

theorem parseDate_format (ds : String) (y m d : Nat) (h : parseDate ds = some (y, m, d)) :
    formatDate y m d = ds := by
  obtain ⟨l⟩ := ds
  unfold parseDate at h
  split at h
  case h_2 => exact Option.noConfusion h
  case h_1 =>
    rename_i c0 c1 c2 c3 c4 c5 c6 c7 c8 c9 hlist
    split at h
    case h_2 => exact Option.noConfusion h
    case h_1 =>
      rename_i a b c dd e f g hh ha hb hc hd he hf hg hhh
      split at h
      case isFalse => exact Option.noConfusion h
      case isTrue hyph =>
        dsimp only at h
        split at h
        case isFalse => exact Option.noConfusion h
        case isTrue hrange =>
          injection h with h
          injection h with h1 h
          injection h with h2 h3
          subst h1 h2 h3
          have hl : l = [c0, c1, c2, c3, c4, c5, c6, c7, c8, c9] := hlist
          subst hl
          obtain ⟨h4, h7⟩ := hyph
          subst h4 h7
          have pa := digitVal_lt _ _ ha
          have pb := digitVal_lt _ _ hb
          have pc := digitVal_lt _ _ hc
          have pd := digitVal_lt _ _ hd
          have pe := digitVal_lt _ _ he
          have pf := digitVal_lt _ _ hf
          have pg := digitVal_lt _ _ hg
          have ph := digitVal_lt _ _ hhh
          have e0 : (1000 * a + 100 * b + 10 * c + dd) / 1000 % 10 = a := by omega
          have e1 : (1000 * a + 100 * b + 10 * c + dd) / 100 % 10 = b := by omega
          have e2 : (1000 * a + 100 * b + 10 * c + dd) / 10 % 10 = c := by omega
          have e3 : (1000 * a + 100 * b + 10 * c + dd) % 10 = dd := by omega
          have e4 : (10 * e + f) / 10 % 10 = e := by omega
          have e5 : (10 * e + f) % 10 = f := by omega
          have e6 : (10 * g + hh) / 10 % 10 = g := by omega
          have e7 : (10 * g + hh) % 10 = hh := by omega
          unfold formatDate
          rw [e0, e1, e2, e3, e4, e5, e6, e7,
             digitChar_digitVal _ _ ha, digitChar_digitVal _ _ hb,
             digitChar_digitVal _ _ hc, digitChar_digitVal _ _ hd,
             digitChar_digitVal _ _ he, digitChar_digitVal _ _ hf,
             digitChar_digitVal _ _ hg, digitChar_digitVal _ _ hhh]

theorem parseTime_format (ts : String) (h mi : Nat) (hp : parseTime ts = some (h, mi)) :
    formatTime h mi = ts := by
  obtain ⟨l⟩ := ts
  unfold parseTime at hp
  split at hp
  case h_2 => exact Option.noConfusion hp
  case h_1 =>
    rename_i c0 c1 c2 c3 c4 hlist
    split at hp
    case h_2 => exact Option.noConfusion hp
    case h_1 =>
      rename_i a b c dd ha hb hc hd
      split at hp
      case isFalse => exact Option.noConfusion hp
      case isTrue hcolon =>
        dsimp only at hp
        split at hp
        case isFalse => exact Option.noConfusion hp
        case isTrue hrange =>
          injection hp with hp
          injection hp with h1 h2
          subst h1 h2
          have hl : l = [c0, c1, c2, c3, c4] := hlist
          subst hl
          subst hcolon
          have pa := digitVal_lt _ _ ha
          have pb := digitVal_lt _ _ hb
          have pc := digitVal_lt _ _ hc
          have pd := digitVal_lt _ _ hd
          have e0 : (10 * a + b) / 10 % 10 = a := by omega
          have e1 : (10 * a + b) % 10 = b := by omega
          have e2 : (10 * c + dd) / 10 % 10 = c := by omega
          have e3 : (10 * c + dd) % 10 = dd := by omega
          unfold formatTime
          rw [e0, e1, e2, e3,
             digitChar_digitVal _ _ ha, digitChar_digitVal _ _ hb,
             digitChar_digitVal _ _ hc, digitChar_digitVal _ _ hd]

theorem daysInMonth_le (y m : Nat) : daysInMonth y m ≤ 31 := by
  unfold daysInMonth
  split
  · split <;> omega
  · split <;> omega

theorem daysInMonth_pos (y m : Nat) : 1 ≤ daysInMonth y m := by
  unfold daysInMonth
  split
  · split <;> omega
  · split <;> omega

theorem parseDate_formatDate (y m d : Nat) (hy : 1 ≤ y) (hy2 : y ≤ 9999)
    (hm : 1 ≤ m) (hm2 : m ≤ 12) (hd : 1 ≤ d) (hd2 : d ≤ daysInMonth y m) :
    parseDate (formatDate y m d) = some (y, m, d) := by
  have h31 : daysInMonth y m ≤ 31 := daysInMonth_le y m
  have e0 := digitVal_digitChar (y / 1000 % 10) (by omega)
  have e1 := digitVal_digitChar (y / 100 % 10) (by omega)
  have e2 := digitVal_digitChar (y / 10 % 10) (by omega)
  have e3 := digitVal_digitChar (y % 10) (by omega)
  have e4 := digitVal_digitChar (m / 10 % 10) (by omega)
  have e5 := digitVal_digitChar (m % 10) (by omega)
  have e6 := digitVal_digitChar (d / 10 % 10) (by omega)
  have e7 := digitVal_digitChar (d % 10) (by omega)
  have hy2' : 1000 * (y / 1000 % 10) + 100 * (y / 100 % 10) + 10 * (y / 10 % 10) + y % 10 = y := by
    omega
  have hm' : 10 * (m / 10 % 10) + m % 10 = m := by omega
  have hd' : 10 * (d / 10 % 10) + d % 10 = d := by omega
  unfold parseDate formatDate
  simp only [String.toList, e0, e1, e2, e3, e4, e5, e6, e7]
  rw [hy2', hm', hd']
  have hcond : 1 ≤ y ∧ 1 ≤ m ∧ m ≤ 12 ∧ 1 ≤ d ∧ d ≤ daysInMonth y m :=
    ⟨hy, hm, hm2, hd, hd2⟩
  exact if_pos hcond

/-- Claim C9: pressing "reserve" with an existing session leaves the session
store unchanged (all recorded draft fields survive); an empty session is
created only when none exists. -/
theorem reserve_preserves_existing_session (w : World) (uid : Nat) (s : Session)
    (hs : lookupKey uid w.available_time_slots = some s) :
    callback_handler uid "reserve" w =
      ({ w with sent := w.sent ++ [(uid, selectDateMsg)] }, none) ∧
    lookupKey uid (callback_handler uid "reserve" w).1.available_time_slots = some s ∧
    (∀ w₂ : World, lookupKey uid w₂.available_time_slots = none →
      (callback_handler uid "reserve" w₂).1.available_time_slots =
        setKey uid emptySession w₂.available_time_slots) := by
  refine ⟨?_, ?_, ?_⟩
  · simp [callback_handler, hs]
  · simp [callback_handler, hs]
  · intro w₂ h₂
    simp [callback_handler, h₂]

/-- Witness for C9 at a concrete mid-flow session. -/
theorem reserve_preserves_existing_session_witness :
    lookupKey 1 (callback_handler 1 "reserve"
      { initWorld with available_time_slots :=
          [(1, { emptySession with date := some "2025-06-01" })] }).1.available_time_slots
      = some { emptySession with date := some "2025-06-01" } :=
  (reserve_preserves_existing_session
    { initWorld with available_time_slots :=
        [(1, { emptySession with date := some "2025-06-01" })] }
    1 { emptySession with date := some "2025-06-01" } rfl).2.1

/-- Claim C2 (amended): with no active session, the free-text step handlers
(name, people, link, notes) respond with the guidance message and mutate no
state, while the structured date, time and party-size callback branches
instead raise `KeyError` without sending the guidance message (and also
mutate no state). -/
theorem missing_session_behavior (w : World) (uid : Nat) (t tgF : String)
    (tgL tgU : Option String) (eff : NotesEffects) (d : String)
    (h : lookupKey uid w.available_time_slots = none) :
    process_full_name uid t w = { w with sent := w.sent ++ [(uid, somethingWrongMsg)] } ∧
    process_num_people uid t w = { w with sent := w.sent ++ [(uid, somethingWrongMsg)] } ∧
    process_restaurant_link uid t w = { w with sent := w.sent ++ [(uid, somethingWrongMsg)] } ∧
    process_notes uid t tgF tgL tgU eff w =
      ({ w with sent := w.sent ++ [(uid, somethingWrongMsg)] }, none) ∧
    (d ≠ "reserve" → d.toList.contains '-' = true → d.length = 10 →
      callback_handler uid d w = (w, some PyErr.keyError)) ∧
    (d ≠ "reserve" → (d.toList.contains '-' && d.length == 10) = false →
      pyStartswith d "time_" = true →
      callback_handler uid d w = (w, some PyErr.keyError)) ∧
    callback_handler uid "num_other" w = (w, some PyErr.keyError) ∧
    callback_handler uid "num_3" w = (w, some PyErr.keyError) := by
  refine ⟨?_, ?_, ?_, ?_, ?_, ?_, ?_, ?_⟩
  · simp [process_full_name, h]
  · simp [process_num_people, h]
  · simp [process_restaurant_link, h]
  · simp [process_notes, h]
  · intro h1 h2 h3
    have h2' : '-' ∈ d.data := by simpa using h2
    simp [callback_handler, h, h1, h2, h3]
    intro hmem
    exact absurd h2' hmem
  · intro h1 h2 h3
    simp [callback_handler, h, h1, h2, h3]
  · simp [callback_handler, h,
      show ¬(("num_other" : String) = "reserve") by decide,
      show ("num_other".toList.contains '-' && "num_other".length == 10) = false from rfl,
      show pyStartswith "num_other" "time_" = false from rfl,
      show pyStartswith "num_other" "num_" = true from rfl,
      show pyReplace "num_other" "num_" = "other" from rfl]
  · simp [callback_handler, h,
      show ¬(("num_3" : String) = "reserve") by decide,
      show ("num_3".toList.contains '-' && "num_3".length == 10) = false from rfl,
      show pyStartswith "num_3" "time_" = false from rfl,
      show pyStartswith "num_3" "num_" = true from rfl,
      show pyReplace "num_3" "num_" = "3" from rfl,
      show ¬(("3" : String) = "other") by decide,
      show pyInt "3" = some 3 from rfl]

/-- Witness for C2's amended theorem at the empty world. -/
theorem missing_session_behavior_witness :
    process_full_name 1 "Jane Doe" initWorld =
      { initWorld with sent := [(1, somethingWrongMsg)] } ∧
    callback_handler 1 "num_other" initWorld = (initWorld, some PyErr.keyError) := by
  have h := missing_session_behavior initWorld 1 "Jane Doe" "Jane" none none allOk "x" rfl
  exact ⟨h.1, h.2.2.2.2.2.2.1⟩

/-- Counterexample for C2 as stated: a stale date callback (session absent)
does not respond with the guidance message — it raises `KeyError`, leaving
the sent-message list empty. -/
theorem missing_session_callback_counterexample :
    callback_handler 1 "2025-06-01" initWorld = (initWorld, some PyErr.keyError) ∧
    (callback_handler 1 "2025-06-01" initWorld).1.sent = [] := by
  exact ⟨by rfl, by rfl⟩

/-- Iterating `process_num_people` over inputs that all fail integer parsing
leaves the session store and database untouched and keeps the handler
re-registered, for any number of retries. -/
theorem num_people_retry_foldl (uid : Nat) (s : Session) (texts : List String) :
    ∀ w : World,
      lookupKey uid w.available_time_slots = some s →
      (∀ t ∈ texts, pyInt (pyStrip t) = none) →
      (texts.foldl (fun acc t => process_num_people uid t acc) w).available_time_slots =
        w.available_time_slots ∧
      (texts.foldl (fun acc t => process_num_people uid t acc) w).db = w.db ∧
      (texts = [] ∨
        lookupKey uid
          (texts.foldl (fun acc t => process_num_people uid t acc) w).registered =
          some Handler.numPeople) := by
  induction texts with
  | nil =>
    intro w hw hall
    exact ⟨rfl, rfl, Or.inl rfl⟩
  | cons t ts ih =>
    intro w hw hall
    have ht := hall t (List.mem_cons_self t ts)
    have hstep : process_num_people uid t w =
        { w with sent := w.sent ++ [(uid, invalidNumberMsg)],
                 registered := setKey uid Handler.numPeople w.registered } := by
      simp [process_num_people, hw, ht]
    rw [List.foldl_cons, hstep]
    have hw1 : lookupKey uid
        ({ w with sent := w.sent ++ [(uid, invalidNumberMsg)],
                  registered := setKey uid Handler.numPeople w.registered } :
          World).available_time_slots = some s := hw
    obtain ⟨h1, h2, h3⟩ := ih _ hw1 (fun t' h' => hall t' (List.mem_cons_of_mem _ h'))
    refine ⟨h1, h2, Or.inr ?_⟩
    rcases h3 with he | hr
    · rw [he]
      simp [lookupKey_setKey_self]
    · exact hr

/-- Claim C3: a party-size input that fails integer parsing leaves the session
unchanged (no `num_people`, no step advance), re-prompts, and re-registers the
same handler; iterated failures never change the session, with no retry bound. -/
theorem invalid_num_people_retries (w : World) (uid : Nat) (s : Session)
    (texts : List String)
    (hs : lookupKey uid w.available_time_slots = some s)
    (hall : ∀ t ∈ texts, pyInt (pyStrip t) = none) :
    (∀ t, pyInt (pyStrip t) = none →
      process_num_people uid t w =
        { w with sent := w.sent ++ [(uid, invalidNumberMsg)],
                 registered := setKey uid Handler.numPeople w.registered }) ∧
    (texts.foldl (fun acc t => process_num_people uid t acc) w).available_time_slots =
      w.available_time_slots ∧
    (texts.foldl (fun acc t => process_num_people uid t acc) w).db = w.db ∧
    (texts ≠ [] →
      lookupKey uid
        (texts.foldl (fun acc t => process_num_people uid t acc) w).registered =
        some Handler.numPeople) := by
  obtain ⟨h1, h2, h3⟩ := num_people_retry_foldl uid s texts w hs hall
  refine ⟨?_, h1, h2, ?_⟩
  · intro t ht
    simp [process_num_people, hs, ht]
  · intro hne
    rcases h3 with he | hr
    · exact absurd he hne
    · exact hr

def wEmpty1 : World := { available_time_slots := [(1, emptySession)] }

/-- Witness for C3: three failing inputs in a row at a concrete session. -/
theorem invalid_num_people_retries_witness :
    (["abc", "12x", ""].foldl (fun acc t => process_num_people 1 t acc)
      wEmpty1).available_time_slots = wEmpty1.available_time_slots ∧
    lookupKey 1 (["abc", "12x", ""].foldl (fun acc t => process_num_people 1 t acc)
      wEmpty1).registered = some Handler.numPeople := by
  have h := invalid_num_people_retries wEmpty1 1 emptySession ["abc", "12x", ""] rfl
    (by intro t ht; fin_cases ht <;> rfl)
  exact ⟨h.2.1, h.2.2.2 (by simp)⟩

/-- Claim C4: from any existing session, quick-pick `num_3` and free-text
`"3"` via the `num_other` path produce the same session store, with
`num_people = 3`, step `restaurant_link`, and the restaurant-link handler
registered next in both cases (neither path raises). -/
theorem quickpick_freetext_converge (w : World) (uid : Nat) (s : Session)
    (hs : lookupKey uid w.available_time_slots = some s) :
    (callback_handler uid "num_3" w).2 = none ∧
    (callback_handler uid "num_other" w).2 = none ∧
    (callback_handler uid "num_3" w).1.available_time_slots =
      (process_num_people uid "3" (callback_handler uid "num_other" w).1).available_time_slots ∧
    lookupKey uid (callback_handler uid "num_3" w).1.available_time_slots =
      some { s with num_people := some 3, step := some "restaurant_link" } ∧
    lookupKey uid (process_num_people uid "3"
        (callback_handler uid "num_other" w).1).available_time_slots =
      some { s with num_people := some 3, step := some "restaurant_link" } ∧
    lookupKey uid (callback_handler uid "num_3" w).1.registered =
      some Handler.restaurantLink ∧
    lookupKey uid (process_num_people uid "3"
        (callback_handler uid "num_other" w).1).registered =
      some Handler.restaurantLink := by
  have c3 : callback_handler uid "num_3" w =
      ({ w with
         available_time_slots :=
           setKey uid { s with num_people := some 3, step := some "restaurant_link" }
             w.available_time_slots
         sent := w.sent ++ [(uid, linkMsg)]
         registered := setKey uid Handler.restaurantLink w.registered }, none) := by
    simp [callback_handler, hs,
      show ¬(("num_3" : String) = "reserve") by decide,
      show ("num_3".toList.contains '-' && "num_3".length == 10) = false from rfl,
      show pyStartswith "num_3" "time_" = false from rfl,
      show pyStartswith "num_3" "num_" = true from rfl,
      show pyReplace "num_3" "num_" = "3" from rfl,
      show ¬(("3" : String) = "other") by decide,
      show pyInt "3" = some 3 from rfl]
  have cother : callback_handler uid "num_other" w =
      ({ w with
         available_time_slots :=
           setKey uid { s with step := some "num_people" } w.available_time_slots
         sent := w.sent ++ [(uid, otherPeopleMsg)]
         registered := setKey uid Handler.numPeople w.registered }, none) := by
    simp [callback_handler, hs,
      show ¬(("num_other" : String) = "reserve") by decide,
      show ("num_other".toList.contains '-' && "num_other".length == 10) = false from rfl,
      show pyStartswith "num_other" "time_" = false from rfl,
      show pyStartswith "num_other" "num_" = true from rfl,
      show pyReplace "num_other" "num_" = "other" from rfl]
  have cfree : process_num_people uid "3" (callback_handler uid "num_other" w).1 =
      { w with
        available_time_slots :=
          setKey uid { s with num_people := some 3, step := some "restaurant_link" }
            w.available_time_slots
        sent := (w.sent ++ [(uid, otherPeopleMsg)]) ++ [(uid, linkMsg)]
        registered := setKey uid Handler.restaurantLink w.registered } := by
    rw [cother]
    simp [process_num_people, lookupKey_setKey_self,
      show pyInt (pyStrip "3") = some 3 from rfl, setKey_setKey]
  rw [c3, cfree, cother]
  simp [lookupKey_setKey_self]

/-- Witness for C4 at a concrete session. -/
theorem quickpick_freetext_converge_witness :
    (callback_handler 1 "num_3" wEmpty1).1.available_time_slots =
      (process_num_people 1 "3"
        (callback_handler 1 "num_other" wEmpty1).1).available_time_slots ∧
    lookupKey 1 (callback_handler 1 "num_3" wEmpty1).1.available_time_slots =
      some { emptySession with num_people := some 3, step := some "restaurant_link" } := by
  have h := quickpick_freetext_converge wEmpty1 1 emptySession rfl
  exact ⟨h.2.2.1, h.2.2.2.1⟩

/-- Claim C5: any trimmed free-text input that parses as an integer —
including zero and negatives — is recorded verbatim as `num_people`, and the
step advances to the restaurant link with no range validation. -/
theorem num_people_no_range_validation (w : World) (uid : Nat) (s : Session)
    (t : String) (v : Int)
    (hs : lookupKey uid w.available_time_slots = some s)
    (hp : pyInt (pyStrip t) = some v) :
    process_num_people uid t w =
      { w with
        available_time_slots :=
          setKey uid { s with num_people := some v, step := some "restaurant_link" }
            w.available_time_slots
        sent := w.sent ++ [(uid, linkMsg)]
        registered := setKey uid Handler.restaurantLink w.registered } := by
  simp [process_num_people, hs, hp]

/-- Witness for C5 at the boundary inputs `"-1"` and `"0"`. -/
theorem num_people_no_range_validation_witness :
    pyInt (pyStrip "-1") = some (-1) ∧ pyInt (pyStrip "0") = some 0 ∧
    process_num_people 1 "-1" wEmpty1 =
      { wEmpty1 with
        available_time_slots :=
          setKey 1 { emptySession with num_people := some (-1), step := some "restaurant_link" }
            wEmpty1.available_time_slots
        sent := wEmpty1.sent ++ [(1, linkMsg)]
        registered := setKey 1 Handler.restaurantLink wEmpty1.registered } :=
  ⟨rfl, rfl, num_people_no_range_validation wEmpty1 1 emptySession "-1" (-1) rfl rfl⟩

/-- Claim C1: on a session holding date, time, name and party size (canonical
`YYYY-MM-DD`/`HH:MM` values), the notes handler records the trimmed text as
notes, appends exactly one reservation row whose fields equal the session's,
with a fresh unique identifier, deletes the session, and a subsequent
step-handler input for that user yields the guidance message. -/
theorem process_notes_completes_reservation
    (w : World) (uid : Nat) (s : Session) (text tgF : String) (tgL tgU : Option String)
    (ds ts fn : String) (np : Int) (rdt : PyDateTime)
    (hs : lookupKey uid w.available_time_slots = some s)
    (hd : s.date = some ds) (ht : s.time = some ts)
    (hf : s.full_name = some fn) (hn : s.num_people = some np)
    (hdt : parseDateTime ds ts = some rdt)
    (hids : ∀ r ∈ w.db, r.reservation_id < w.nextId) :
    ∃ w' rec,
      process_notes uid text tgF tgL tgU allOk w = (w', none) ∧
      w'.db = w.db ++ [rec] ∧
      rec.reservation_id = w.nextId ∧
      rec.user_id = uid ∧
      rec.full_name = fn ∧
      rec.num_people = np ∧
      rec.date = ds ∧
      rec.reservation_time = ts ∧
      rec.restaurant_link = s.restaurant_link ∧
      rec.notes = some (pyStrip text) ∧
      (∀ r ∈ w.db, r.reservation_id ≠ rec.reservation_id) ∧
      lookupKey uid w'.available_time_slots = none ∧
      (∀ t2, process_full_name uid t2 w' =
        { w' with sent := w'.sent ++ [(uid, somethingWrongMsg)] }) := by
  unfold parseDateTime at hdt
  cases hpd : parseDate ds with
  | none =>
    rw [hpd] at hdt
    exact absurd hdt (by simp)
  | some ymd =>
    obtain ⟨y, m, d⟩ := ymd
    cases hpt : parseTime ts with
    | none =>
      rw [hpd, hpt] at hdt
      exact absurd hdt (by simp)
    | some hmi =>
      obtain ⟨hh, mi⟩ := hmi
      rw [hpd, hpt] at hdt
      dsimp only at hdt
      injection hdt with hdt
      subst hdt
      have hPDT : parseDateTime ds ts = some ⟨y, m, d, hh, mi⟩ := by
        unfold parseDateTime
        rw [hpd, hpt]
      have hfd : formatDate y m d = ds := parseDate_format ds y m d hpd
      have hft : formatTime hh mi = ts := parseTime_format ts hh mi hpt
      have hsnd : (process_notes uid text tgF tgL tgU allOk w).2 = none := by
        simp [process_notes, hs, hd, ht, hf, hn, hPDT, allOk, save_reservation_to_db]
      have hdb : (process_notes uid text tgF tgL tgU allOk w).1.db =
          w.db ++ [⟨w.nextId, uid, fn, s.restaurant_link, np, ds, ts, some (pyStrip text)⟩] := by
        simp [process_notes, hs, hd, ht, hf, hn, hPDT, allOk, save_reservation_to_db, hfd, hft]
      have hnone : lookupKey uid
          (process_notes uid text tgF tgL tgU allOk w).1.available_time_slots = none := by
        simp [process_notes, hs, hd, ht, hf, hn, hPDT, allOk, save_reservation_to_db,
          lookupKey_delKey_self]
      refine ⟨(process_notes uid text tgF tgL tgU allOk w).1,
        ⟨w.nextId, uid, fn, s.restaurant_link, np, ds, ts, some (pyStrip text)⟩,
        ?_, hdb, rfl, rfl, rfl, rfl, rfl, rfl, rfl, rfl, ?_, hnone, ?_⟩
      · rw [← hsnd]
      · intro r hr
        exact (Nat.ne_of_lt (hids r hr))
      · intro t2
        simp [process_full_name, hnone]

def sJane : Session :=
  { date := some "2025-06-01", time := some "19:30", full_name := some "Jane Doe",
    num_people := some 2, restaurant_link := some "https://example.com/r/1",
    step := some "notes" }

def wJane : World := { available_time_slots := [(7, sJane)] }

/-- Witness for C1 at the spec's concrete example flow values. -/
theorem process_notes_completes_reservation_witness :
    ∃ w' rec,
      process_notes 7 "" "Jane" (some "Doe") (some "jd") allOk wJane = (w', none) ∧
      w'.db = wJane.db ++ [rec] ∧
      rec.date = "2025-06-01" ∧
      rec.reservation_time = "19:30" ∧
      rec.full_name = "Jane Doe" ∧
      rec.num_people = 2 ∧
      rec.restaurant_link = some "https://example.com/r/1" ∧
      rec.notes = some "" ∧
      lookupKey 7 w'.available_time_slots = none := by
  obtain ⟨w', rec, h1, h2, h3, h4, h5, h6, h7, h8, h9, h10, h11, h12, h13⟩ :=
    process_notes_completes_reservation wJane 7 sJane "" "Jane" (some "Doe") (some "jd")
      "2025-06-01" "19:30" "Jane Doe" 2 ⟨2025, 6, 1, 19, 30⟩ rfl rfl rfl rfl rfl (by rfl)
      (by intro r hr; simp [wJane] at hr)
  refine ⟨w', rec, h1, h2, h7, h8, h5, h6, h9, ?_, h12⟩
  rw [h10]
  rfl


/-- Behavior of `process_notes` when the DB insert raises: notes are recorded in the
session, nothing else happens, and the exception propagates. -/
theorem process_notes_save_fail (w : World) (uid : Nat) (s : Session) (text tgF : String)
    (tgL tgU : Option String) (s1 s2 s3 s4 : Bool)
    (ds ts fn : String) (np : Int) (rdt : PyDateTime)
    (hs : lookupKey uid w.available_time_slots = some s)
    (hd : s.date = some ds) (ht : s.time = some ts)
    (hf : s.full_name = some fn) (hn : s.num_people = some np)
    (hdt : parseDateTime ds ts = some rdt) :
    process_notes uid text tgF tgL tgU ⟨false, s1, s2, s3, s4⟩ w =
      ({ w with available_time_slots :=
          setKey uid { s with notes := some (pyStrip text) } w.available_time_slots },
        some PyErr.dbError) := by
  simp [process_notes, hs, hd, ht, hf, hn, hdt]

/-- Behavior of `process_notes` when the first confirmation send raises: the row is
inserted, no message is sent, the session survives. -/
theorem process_notes_send1_fail (w : World) (uid : Nat) (s : Session) (text tgF : String)
    (tgL tgU : Option String) (s2 s3 s4 : Bool)
    (ds ts fn : String) (np : Int) (rdt : PyDateTime)
    (hs : lookupKey uid w.available_time_slots = some s)
    (hd : s.date = some ds) (ht : s.time = some ts)
    (hf : s.full_name = some fn) (hn : s.num_people = some np)
    (hdt : parseDateTime ds ts = some rdt) :
    process_notes uid text tgF tgL tgU ⟨true, false, s2, s3, s4⟩ w =
      ({ w with
         available_time_slots :=
           setKey uid { s with notes := some (pyStrip text) } w.available_time_slots
         db := w.db ++ [⟨w.nextId, uid, fn, s.restaurant_link, np,
           formatDate rdt.year rdt.month rdt.day, formatTime rdt.hour rdt.minute,
           some (pyStrip text)⟩]
         nextId := w.nextId + 1 },
        some PyErr.sendError) := by
  simp [process_notes, hs, hd, ht, hf, hn, hdt, save_reservation_to_db]

/-- Behavior of `process_notes` when the second customer send raises. -/
theorem process_notes_send2_fail (w : World) (uid : Nat) (s : Session) (text tgF : String)
    (tgL tgU : Option String) (s3 s4 : Bool)
    (ds ts fn : String) (np : Int) (rdt : PyDateTime)
    (hs : lookupKey uid w.available_time_slots = some s)
    (hd : s.date = some ds) (ht : s.time = some ts)
    (hf : s.full_name = some fn) (hn : s.num_people = some np)
    (hdt : parseDateTime ds ts = some rdt) :
    process_notes uid text tgF tgL tgU ⟨true, true, false, s3, s4⟩ w =
      ({ w with
         available_time_slots :=
           setKey uid { s with notes := some (pyStrip text) } w.available_time_slots
         db := w.db ++ [⟨w.nextId, uid, fn, s.restaurant_link, np,
           formatDate rdt.year rdt.month rdt.day, formatTime rdt.hour rdt.minute,
           some (pyStrip text)⟩]
         nextId := w.nextId + 1
         sent := w.sent ++
           [(uid, confirmationMsg ds ts fn np s.restaurant_link (some (pyStrip text)))] },
        some PyErr.sendError) := by
  simp [process_notes, hs, hd, ht, hf, hn, hdt, save_reservation_to_db]

/-- Behavior of `process_notes` when the menu-reissue send raises. -/
theorem process_notes_send3_fail (w : World) (uid : Nat) (s : Session) (text tgF : String)
    (tgL tgU : Option String) (s4 : Bool)
    (ds ts fn : String) (np : Int) (rdt : PyDateTime)
    (hs : lookupKey uid w.available_time_slots = some s)
    (hd : s.date = some ds) (ht : s.time = some ts)
    (hf : s.full_name = some fn) (hn : s.num_people = some np)
    (hdt : parseDateTime ds ts = some rdt) :
    process_notes uid text tgF tgL tgU ⟨true, true, true, false, s4⟩ w =
      ({ w with
         available_time_slots :=
           setKey uid { s with notes := some (pyStrip text) } w.available_time_slots
         db := w.db ++ [⟨w.nextId, uid, fn, s.restaurant_link, np,
           formatDate rdt.year rdt.month rdt.day, formatTime rdt.hour rdt.minute,
           some (pyStrip text)⟩]
         nextId := w.nextId + 1
         sent := (w.sent ++
           [(uid, confirmationMsg ds ts fn np s.restaurant_link (some (pyStrip text)))]) ++
           [(uid, customerMsg)] },
        some PyErr.sendError) := by
  simp [process_notes, hs, hd, ht, hf, hn, hdt, save_reservation_to_db]

/-- Behavior of `process_notes` when the admin notification send raises. -/
theorem process_notes_send4_fail (w : World) (uid : Nat) (s : Session) (text tgF : String)
    (tgL tgU : Option String)
    (ds ts fn : String) (np : Int) (rdt : PyDateTime)
    (hs : lookupKey uid w.available_time_slots = some s)
    (hd : s.date = some ds) (ht : s.time = some ts)
    (hf : s.full_name = some fn) (hn : s.num_people = some np)
    (hdt : parseDateTime ds ts = some rdt) :
    process_notes uid text tgF tgL tgU ⟨true, true, true, true, false⟩ w =
      ({ w with
         available_time_slots :=
           setKey uid { s with notes := some (pyStrip text) } w.available_time_slots
         db := w.db ++ [⟨w.nextId, uid, fn, s.restaurant_link, np,
           formatDate rdt.year rdt.month rdt.day, formatTime rdt.hour rdt.minute,
           some (pyStrip text)⟩]
         nextId := w.nextId + 1
         sent := ((w.sent ++
           [(uid, confirmationMsg ds ts fn np s.restaurant_link (some (pyStrip text)))]) ++
           [(uid, customerMsg)]) ++ [(uid, welcomeMsg)] },
        some PyErr.sendError) := by
  simp [process_notes, hs, hd, ht, hf, hn, hdt, save_reservation_to_db]

/-- Claim C6: if the DB insert or any completion-sequence send raises during
the final notes step, the exception propagates uncaught, the remaining
completion messages are not sent (the sent list grows by a strict prefix of
the four completion messages), the session is never deleted (it survives with
its step unchanged and the trimmed notes recorded), and a subsequent reset
command clears it. -/
theorem completion_failure_keeps_session
    (w : World) (uid : Nat) (s : Session) (text tgF : String) (tgL tgU : Option String)
    (eff : NotesEffects)
    (ds ts fn : String) (np : Int) (rdt : PyDateTime)
    (hs : lookupKey uid w.available_time_slots = some s)
    (hd : s.date = some ds) (ht : s.time = some ts)
    (hf : s.full_name = some fn) (hn : s.num_people = some np)
    (hdt : parseDateTime ds ts = some rdt)
    (hfail : (eff.saveOk && eff.send1 && eff.send2 && eff.send3 && eff.send4) = false) :
    (process_notes uid text tgF tgL tgU eff w).2.isSome = true ∧
    lookupKey uid (process_notes uid text tgF tgL tgU eff w).1.available_time_slots =
      some { s with notes := some (pyStrip text) } ∧
    ({ s with notes := some (pyStrip text) } : Session).step = s.step ∧
    (eff.saveOk = false →
      (process_notes uid text tgF tgL tgU eff w).1.sent = w.sent ∧
      (process_notes uid text tgF tgL tgU eff w).1.db = w.db) ∧
    (∃ k < 4, (process_notes uid text tgF tgL tgU eff w).1.sent =
      w.sent ++ ([(uid, confirmationMsg ds ts fn np s.restaurant_link (some (pyStrip text))),
                  (uid, customerMsg), (uid, welcomeMsg),
                  (ADMIN_ID, adminMsg ds ts fn np s.restaurant_link (some (pyStrip text))
                    (pyStrip (tgF ++ " " ++ tgL.getD ""))
                    (match tgU with
                     | some u => if u = "" then "No username" else "@" ++ u
                     | none => "No username"))] : List (Nat × String)).take k) ∧
    lookupKey uid
      (send_welcome uid (process_notes uid text tgF tgL tgU eff w).1).available_time_slots =
      none := by
  obtain ⟨sv, s1, s2, s3, s4⟩ := eff
  cases sv with
  | false =>
    rw [process_notes_save_fail w uid s text tgF tgL tgU s1 s2 s3 s4 ds ts fn np rdt
      hs hd ht hf hn hdt]
    exact ⟨rfl, lookupKey_setKey_self uid _ w.available_time_slots, rfl,
      fun _ => ⟨rfl, rfl⟩, ⟨0, by omega, by simp⟩,
      by simp [send_welcome, lookupKey_setKey_self, lookupKey_delKey_self]⟩
  | true =>
    cases s1 with
    | false =>
      rw [process_notes_send1_fail w uid s text tgF tgL tgU s2 s3 s4 ds ts fn np rdt
        hs hd ht hf hn hdt]
      exact ⟨rfl, lookupKey_setKey_self uid _ w.available_time_slots, rfl,
        fun hff => absurd hff (by simp), ⟨0, by omega, by simp⟩,
        by simp [send_welcome, lookupKey_setKey_self, lookupKey_delKey_self]⟩
    | true =>
      cases s2 with
      | false =>
        rw [process_notes_send2_fail w uid s text tgF tgL tgU s3 s4 ds ts fn np rdt
          hs hd ht hf hn hdt]
        exact ⟨rfl, lookupKey_setKey_self uid _ w.available_time_slots, rfl,
          fun hff => absurd hff (by simp), ⟨1, by omega, by simp⟩,
          by simp [send_welcome, lookupKey_setKey_self, lookupKey_delKey_self]⟩
      | true =>
        cases s3 with
        | false =>
          rw [process_notes_send3_fail w uid s text tgF tgL tgU s4 ds ts fn np rdt
            hs hd ht hf hn hdt]
          exact ⟨rfl, lookupKey_setKey_self uid _ w.available_time_slots, rfl,
            fun hff => absurd hff (by simp), ⟨2, by omega, by simp⟩,
            by simp [send_welcome, lookupKey_setKey_self, lookupKey_delKey_self]⟩
        | true =>
          cases s4 with
          | false =>
            rw [process_notes_send4_fail w uid s text tgF tgL tgU ds ts fn np rdt
              hs hd ht hf hn hdt]
            exact ⟨rfl, lookupKey_setKey_self uid _ w.available_time_slots, rfl,
              fun hff => absurd hff (by simp), ⟨3, by omega, by simp⟩,
              by simp [send_welcome, lookupKey_setKey_self, lookupKey_delKey_self]⟩
          | true => simp at hfail

/-- Witness for C6: a DB failure at the concrete completed session. -/
theorem completion_failure_keeps_session_witness :
    (process_notes 7 "" "Jane" (some "Doe") (some "jd")
      ⟨false, true, true, true, true⟩ wJane).2.isSome = true ∧
    lookupKey 7 (process_notes 7 "" "Jane" (some "Doe") (some "jd")
      ⟨false, true, true, true, true⟩ wJane).1.available_time_slots =
      some { sJane with notes := some (pyStrip "") } ∧
    (process_notes 7 "" "Jane" (some "Doe") (some "jd")
      ⟨false, true, true, true, true⟩ wJane).1.sent = wJane.sent := by
  have h := completion_failure_keeps_session wJane 7 sJane "" "Jane" (some "Doe") (some "jd")
    ⟨false, true, true, true, true⟩ "2025-06-01" "19:30" "Jane Doe" 2 ⟨2025, 6, 1, 19, 30⟩
    rfl rfl rfl rfl rfl (by rfl) rfl
  exact ⟨h.1, h.2.1, (h.2.2.2.1 rfl).1⟩

/-- Every formatted date token is 10 characters and contains a hyphen. -/
theorem formatDate_shape (y m d : Nat) :
    (formatDate y m d).length = 10 ∧ (formatDate y m d).toList.contains '-' = true := by
  constructor
  · rfl
  · simp [formatDate, String.toList]

/-- Claim C8 (amended): the date keyboard offers exactly 7 tokens, the
`i`-th encoding `today + i` days in 10-character hyphenated `YYYY-MM-DD`
form (for a valid `today` the first token round-trips through the date
parser); the date callback branch accepts any token of length 10 containing
a hyphen — with no check against the offered selection and no calendar
validation — recording it verbatim as the session's date. -/
theorem date_buttons_and_acceptance (ty tm td : Nat)
    (w : World) (uid : Nat) (s : Session) (data : String)
    (hs : lookupKey uid w.available_time_slots = some s) :
    (generate_date_selection_buttons (ty, tm, td)).length = 7 ∧
    (∀ i (h : i < (generate_date_selection_buttons (ty, tm, td)).length),
      (generate_date_selection_buttons (ty, tm, td)).get ⟨i, h⟩ =
        formatYmd (addDays i (ty, tm, td))) ∧
    (∀ t ∈ generate_date_selection_buttons (ty, tm, td),
      t.length = 10 ∧ t.toList.contains '-' = true) ∧
    (validYmd (ty, tm, td) → ty ≤ 9999 →
      parseDate (formatYmd (ty, tm, td)) = some (ty, tm, td)) ∧
    (data ≠ "reserve" → data.toList.contains '-' = true → data.length = 10 →
      callback_handler uid data w =
        ({ w with
           available_time_slots :=
             setKey uid { s with date := some data } w.available_time_slots
           sent := w.sent ++
             [(uid, "Please select a time for " ++ data ++ ":")] }, none)) := by
  refine ⟨rfl, ?_, ?_, ?_, ?_⟩
  · intro i h
    simp [generate_date_selection_buttons]
  · intro t ht
    simp only [generate_date_selection_buttons, List.mem_map] at ht
    obtain ⟨i, _, rfl⟩ := ht
    obtain ⟨y, m, d⟩ := addDays i (ty, tm, td)
    exact formatDate_shape y m d
  · intro hv hy
    obtain ⟨h1, h2, h3, h4, h5⟩ := hv
    exact parseDate_formatDate ty tm td h1 hy h2 h3 h4 h5
  · intro h1 h2 h3
    have h2' : '-' ∈ data.data := by simpa using h2
    simp [callback_handler, h1, h2, h3, hs]
    intro hmem
    exact absurd h2' hmem

/-- Witness for C8's amended theorem at a concrete date and session. -/
theorem date_buttons_and_acceptance_witness :
    (generate_date_selection_buttons (2025, 6, 1)).length = 7 ∧
    parseDate (formatYmd (2025, 6, 1)) = some (2025, 6, 1) ∧
    callback_handler 1 "2025-06-01" wEmpty1 =
      ({ wEmpty1 with
         available_time_slots :=
           setKey 1 { emptySession with date := some "2025-06-01" }
             wEmpty1.available_time_slots
         sent := wEmpty1.sent ++
           [(1, "Please select a time for " ++ "2025-06-01" ++ ":")] }, none) := by
  have h := date_buttons_and_acceptance 2025 6 1 wEmpty1 1 emptySession "2025-06-01" rfl
  exact ⟨h.1, h.2.2.2.1 (by decide) (by decide),
    h.2.2.2.2 (by decide) (by rfl) (by rfl)⟩

/-- Counterexample for C8 as stated: the token `"ab-defghij"` is not among
the offered buttons for any of these dates, yet the date branch accepts it
verbatim as the session's date. -/
theorem date_branch_accepts_unoffered_token :
    "ab-defghij" ∉ generate_date_selection_buttons (2025, 6, 1) ∧
    (callback_handler 1 "ab-defghij" wEmpty1).2 = none ∧
    lookupKey 1 (callback_handler 1 "ab-defghij" wEmpty1).1.available_time_slots =
      some { emptySession with date := some "ab-defghij" } := by
  refine ⟨by decide, by rfl, by rfl⟩

/-! ### Invariant for C10: rows written by the wizard have non-null link and notes -/

/-- All stored rows have non-null `restaurant_link` and `notes`. -/
def DbOkL (db : List Reservation) : Prop :=
  ∀ r ∈ db, r.restaurant_link.isSome = true ∧ r.notes.isSome = true

/-- Whenever the notes step is the registered continuation for a chat, that
user's session exists and already holds a restaurant link. -/
def RegOkC (reg : List (Nat × Handler)) (store : List (Nat × Session)) : Prop :=
  ∀ uid, lookupKey uid reg = some Handler.notes →
    ∃ s, lookupKey uid store = some s ∧ s.restaurant_link.isSome = true

def WizInv (w : World) : Prop :=
  DbOkL w.db ∧ RegOkC w.registered w.available_time_slots

theorem regok_set_session (reg : List (Nat × Handler)) (store : List (Nat × Session))
    (uid : Nat) (s s' : Session)
    (hs : lookupKey uid store = some s) (hl : s'.restaurant_link = s.restaurant_link)
    (h : RegOkC reg store) : RegOkC reg (setKey uid s' store) := by
  intro u hu
  by_cases he : u = uid
  · subst he
    obtain ⟨s₀, hs₀, hl₀⟩ := h u hu
    rw [hs] at hs₀
    injection hs₀ with hs₀
    subst hs₀
    exact ⟨s', lookupKey_setKey_self u s' store, by rw [hl]; exact hl₀⟩
  · obtain ⟨s₀, hs₀, hl₀⟩ := h u hu
    exact ⟨s₀, by rw [lookupKey_setKey_ne u uid s' store he]; exact hs₀, hl₀⟩

theorem regok_set_session_some (reg : List (Nat × Handler)) (store : List (Nat × Session))
    (uid : Nat) (s' : Session) (hl : s'.restaurant_link.isSome = true)
    (h : RegOkC reg store) : RegOkC reg (setKey uid s' store) := by
  intro u hu
  by_cases he : u = uid
  · subst he
    exact ⟨s', lookupKey_setKey_self u s' store, hl⟩
  · obtain ⟨s₀, hs₀, hl₀⟩ := h u hu
    exact ⟨s₀, by rw [lookupKey_setKey_ne u uid s' store he]; exact hs₀, hl₀⟩

theorem regok_set_reg_not_notes (reg : List (Nat × Handler)) (store : List (Nat × Session))
    (uid : Nat) (hdl : Handler) (hne : hdl ≠ Handler.notes)
    (h : RegOkC reg store) : RegOkC (setKey uid hdl reg) store := by
  intro u hu
  by_cases he : u = uid
  · subst he
    rw [lookupKey_setKey_self] at hu
    injection hu with hu
    exact absurd hu hne
  · rw [lookupKey_setKey_ne u uid hdl reg he] at hu
    exact h u hu

theorem regok_set_reg_notes (reg : List (Nat × Handler)) (store : List (Nat × Session))
    (uid : Nat) (s : Session)
    (hs : lookupKey uid store = some s) (hl : s.restaurant_link.isSome = true)
    (h : RegOkC reg store) : RegOkC (setKey uid Handler.notes reg) store := by
  intro u hu
  by_cases he : u = uid
  · subst he
    exact ⟨s, hs, hl⟩
  · rw [lookupKey_setKey_ne u uid _ reg he] at hu
    exact h u hu

theorem regok_del_reg (reg : List (Nat × Handler)) (store : List (Nat × Session))
    (uid : Nat) (h : RegOkC reg store) : RegOkC (delKey uid reg) store := by
  intro u hu
  by_cases he : u = uid
  · subst he
    rw [lookupKey_delKey_self] at hu
    exact Option.noConfusion hu
  · rw [lookupKey_delKey_ne u uid reg he] at hu
    exact h u hu

theorem regok_del_both (reg : List (Nat × Handler)) (store : List (Nat × Session))
    (uid : Nat) (h : RegOkC reg store) :
    RegOkC (delKey uid reg) (delKey uid store) := by
  intro u hu
  by_cases he : u = uid
  · subst he
    rw [lookupKey_delKey_self] at hu
    exact Option.noConfusion hu
  · rw [lookupKey_delKey_ne u uid reg he] at hu
    obtain ⟨s₀, hs₀, hl₀⟩ := h u hu
    exact ⟨s₀, by rw [lookupKey_delKey_ne u uid store he]; exact hs₀, hl₀⟩

theorem regok_del_store_of_reg_none (reg : List (Nat × Handler))
    (store : List (Nat × Session)) (uid : Nat)
    (hreg : lookupKey uid reg = none) (h : RegOkC reg store) :
    RegOkC reg (delKey uid store) := by
  intro u hu
  by_cases he : u = uid
  · subst he
    rw [hreg] at hu
    exact Option.noConfusion hu
  · obtain ⟨s₀, hs₀, hl₀⟩ := h u hu
    exact ⟨s₀, by rw [lookupKey_delKey_ne u uid store he]; exact hs₀, hl₀⟩

theorem inv_send_welcome (uid : Nat) (w : World) (h : WizInv w) :
    WizInv (send_welcome uid w) := by
  unfold send_welcome
  refine ⟨h.1, ?_⟩
  cases hL : lookupKey uid w.available_time_slots with
  | none =>
    simp only [hL, Option.isSome_none, Bool.false_eq_true, if_neg, ite_false]
    exact regok_del_reg _ _ uid h.2
  | some s =>
    simp only [hL, Option.isSome_some, ite_true]
    exact regok_del_both _ _ uid h.2

theorem inv_process_full_name (uid : Nat) (t : String) (w : World) (h : WizInv w) :
    WizInv (process_full_name uid t w) := by
  unfold process_full_name
  cases hL : lookupKey uid w.available_time_slots with
  | none => exact h
  | some s => exact ⟨h.1, regok_set_session _ _ uid s _ hL rfl h.2⟩

theorem inv_process_num_people (uid : Nat) (t : String) (w : World) (h : WizInv w) :
    WizInv (process_num_people uid t w) := by
  unfold process_num_people
  cases hL : lookupKey uid w.available_time_slots with
  | none => exact h
  | some s =>
    cases hP : pyInt (pyStrip t) with
    | none =>
      exact ⟨h.1, regok_set_reg_not_notes _ _ uid Handler.numPeople
        (by intro hc; exact Handler.noConfusion hc) h.2⟩
    | some n =>
      exact ⟨h.1, regok_set_reg_not_notes _ _ uid Handler.restaurantLink
        (by intro hc; exact Handler.noConfusion hc)
        (regok_set_session _ _ uid s _ hL rfl h.2)⟩

theorem inv_process_restaurant_link (uid : Nat) (t : String) (w : World) (h : WizInv w) :
    WizInv (process_restaurant_link uid t w) := by
  unfold process_restaurant_link
  cases hL : lookupKey uid w.available_time_slots with
  | none => exact h
  | some s =>
    refine ⟨h.1, ?_⟩
    refine regok_set_reg_notes _ _ uid
      { s with restaurant_link := some (pyStrip t), step := some "notes" }
      (lookupKey_setKey_self uid _ w.available_time_slots) rfl ?_
    exact regok_set_session_some _ _ uid _ rfl h.2

theorem inv_process_notes (uid : Nat) (t tgF : String) (tgL tgU : Option String)
    (eff : NotesEffects) (w : World) (h : WizInv w)
    (hregnone : lookupKey uid w.registered = none)
    (hlink : ∀ s, lookupKey uid w.available_time_slots = some s →
      s.restaurant_link.isSome = true) :
    WizInv (process_notes uid t tgF tgL tgU eff w).1 := by
  unfold process_notes
  cases hL : lookupKey uid w.available_time_slots with
  | none => exact h
  | some s =>
    have hlk : s.restaurant_link.isSome = true := hlink s hL
    dsimp only
    cases hd : s.date with
    | none => exact ⟨h.1, regok_set_session _ _ uid s _ hL rfl h.2⟩
    | some ds =>
      dsimp only
      cases ht : s.time with
      | none => exact ⟨h.1, regok_set_session _ _ uid s _ hL rfl h.2⟩
      | some ts =>
        dsimp only
        cases hdt : parseDateTime ds ts with
        | none => exact ⟨h.1, regok_set_session _ _ uid s _ hL rfl h.2⟩
        | some rdt =>
          dsimp only
          cases hf : s.full_name with
          | none => exact ⟨h.1, regok_set_session _ _ uid s _ hL rfl h.2⟩
          | some fn =>
            dsimp only
            cases hn : s.num_people with
            | none => exact ⟨h.1, regok_set_session _ _ uid s _ hL rfl h.2⟩
            | some np =>
              dsimp only [save_reservation_to_db]
              have hdb2 : DbOkL (w.db ++
                  [⟨w.nextId, uid, fn, s.restaurant_link, np,
                    formatDate rdt.year rdt.month rdt.day,
                    formatTime rdt.hour rdt.minute, some (pyStrip t)⟩]) := by
                intro r hr
                rcases List.mem_append.mp hr with hold | hnew
                · exact h.1 r hold
                · rcases List.mem_singleton.mp hnew with rfl
                  exact ⟨hlk, rfl⟩
              obtain ⟨sv, sb1, sb2, sb3, sb4⟩ := eff
              cases sv with
              | false => exact ⟨h.1, regok_set_session _ _ uid s _ hL rfl h.2⟩
              | true =>
                try dsimp only
                cases sb1 with
                | false => exact ⟨hdb2, regok_set_session _ _ uid s _ hL rfl h.2⟩
                | true =>
                  try dsimp only
                  cases sb2 with
                  | false => exact ⟨hdb2, regok_set_session _ _ uid s _ hL rfl h.2⟩
                  | true =>
                    try dsimp only
                    cases sb3 with
                    | false => exact ⟨hdb2, regok_set_session _ _ uid s _ hL rfl h.2⟩
                    | true =>
                      try dsimp only
                      cases sb4 with
                      | false => exact ⟨hdb2, regok_set_session _ _ uid s _ hL rfl h.2⟩
                      | true =>
                        exact ⟨hdb2, regok_del_store_of_reg_none _ _ uid hregnone
                          (regok_set_session _ _ uid s _ hL rfl h.2)⟩

theorem inv_callback_handler (uid : Nat) (data : String) (w : World) (h : WizInv w) :
    WizInv (callback_handler uid data w).1 := by
  unfold callback_handler
  split
  · -- reserve
    dsimp only
    refine ⟨h.1, ?_⟩
    cases hL : lookupKey uid w.available_time_slots with
    | none =>
      simp only [hL, Option.isSome_none, Bool.false_eq_true, ite_false]
      intro u hu
      obtain ⟨s₀, hs₀, hl₀⟩ := h.2 u hu
      by_cases he : u = uid
      · subst he
        rw [hL] at hs₀
        exact Option.noConfusion hs₀
      · exact ⟨s₀, by rw [lookupKey_setKey_ne u uid _ _ he]; exact hs₀, hl₀⟩
    | some s =>
      simp only [hL, Option.isSome_some, ite_true]
      exact h.2
  · split
    · -- date token branch
      cases hL : lookupKey uid w.available_time_slots with
      | none => exact h
      | some s => exact ⟨h.1, regok_set_session _ _ uid s _ hL rfl h.2⟩
    · split
      · -- time_ branch
        cases hL : lookupKey uid w.available_time_slots with
        | none => exact h
        | some s =>
          exact ⟨h.1, regok_set_reg_not_notes _ _ uid Handler.fullName
            (by intro hc; exact Handler.noConfusion hc)
            (regok_set_session _ _ uid s _ hL rfl h.2)⟩
      · split
        · -- num_ branch
          dsimp only
          split
          · -- num_other
            cases hL : lookupKey uid w.available_time_slots with
            | none => exact h
            | some s =>
              exact ⟨h.1, regok_set_reg_not_notes _ _ uid Handler.numPeople
                (by intro hc; exact Handler.noConfusion hc)
                (regok_set_session _ _ uid s _ hL rfl h.2)⟩
          · -- numeric quick pick
            cases hP : pyInt (pyReplace data "num_") with
            | none => exact h
            | some n =>
              cases hL : lookupKey uid w.available_time_slots with
              | none => exact h
              | some s =>
                exact ⟨h.1, regok_set_reg_not_notes _ _ uid Handler.restaurantLink
                  (by intro hc; exact Handler.noConfusion hc)
                  (regok_set_session _ _ uid s _ hL rfl h.2)⟩
        · exact h

theorem inv_dispatch (e : Event) (w : World) (h : WizInv w) : WizInv (dispatch e w).1 := by
  cases e with
  | callback uid data => exact inv_callback_handler uid data w h
  | message uid body tgF tgL tgU eff =>
    simp only [dispatch]
    cases hreg : lookupKey uid w.registered with
    | none =>
      show WizInv ((if body = "/start" then (send_welcome uid w, none)
        else if body = "/panel" then (send_panel uid w, none)
        else (w, none)).1)
      split
      · exact inv_send_welcome uid w h
      · split
        · exact h
        · exact h
    | some hdl =>
      have h0 : WizInv { w with registered := delKey uid w.registered } :=
        ⟨h.1, regok_del_reg _ _ uid h.2⟩
      cases hdl with
      | fullName =>
        show WizInv (process_full_name uid body
          { w with registered := delKey uid w.registered })
        exact inv_process_full_name uid body _ h0
      | numPeople =>
        show WizInv (process_num_people uid body
          { w with registered := delKey uid w.registered })
        exact inv_process_num_people uid body _ h0
      | restaurantLink =>
        show WizInv (process_restaurant_link uid body
          { w with registered := delKey uid w.registered })
        exact inv_process_restaurant_link uid body _ h0
      | notes =>
        show WizInv (process_notes uid body tgF tgL tgU eff
          { w with registered := delKey uid w.registered }).1
        refine inv_process_notes uid body tgF tgL tgU eff _ h0 ?_ ?_
        · exact lookupKey_delKey_self uid w.registered
        · intro s hs
          obtain ⟨s₀, hs₀, hl₀⟩ := h.2 uid hreg
          rw [hs₀] at hs
          injection hs with hs
          subst hs
          exact hl₀

theorem inv_runEvents (events : List Event) :
    ∀ w : World, WizInv w → WizInv (runEvents events w) := by
  induction events with
  | nil => intro w h; exact h
  | cons e es ih =>
    intro w h
    exact ih _ (inv_dispatch e w h)

/-- Claim C10: every reservation row ever written by any sequence of updates
from the initial state has non-null `restaurant_link` and `notes` columns:
the link and notes handlers always store trimmed message text (possibly the
empty string) before a row is written. -/
theorem db_records_link_notes_nonnull (events : List Event) :
    ∀ r ∈ (runEvents events initWorld).db,
      r.restaurant_link.isSome = true ∧ r.notes.isSome = true := by
  have hinit : WizInv initWorld := by
    constructor
    · intro r hr
      exact absurd hr (by simp [initWorld])
    · intro u hu
      exact Option.noConfusion hu
  exact (inv_runEvents events initWorld hinit).1

/-- A complete concrete wizard run: start, reserve, date, time, name,
quick-pick party size, link, empty notes. -/
def demoEvents : List Event :=
  [ .message 1 "/start" "Jane" none none allOk
  , .callback 1 "reserve"
  , .callback 1 "2025-06-01"
  , .callback 1 "time_19:30"
  , .message 1 "Jane Doe" "Jane" none none allOk
  , .callback 1 "num_2"
  , .message 1 "https://example.com/r/1" "Jane" none none allOk
  , .message 1 "" "Jane" (some "Doe") (some "jd") allOk ]

/-- Witness for C10: the record produced by the concrete demo run has
non-null link and notes. -/
theorem db_records_link_notes_nonnull_witness :
    ∃ r, r ∈ (runEvents demoEvents initWorld).db ∧
      r.restaurant_link.isSome = true ∧ r.notes.isSome = true := by
  have hmem : (⟨1, 1, "Jane Doe", some "https://example.com/r/1", 2,
      "2025-06-01", "19:30", some ""⟩ : Reservation) ∈
      (runEvents demoEvents initWorld).db := by
    rw [show (runEvents demoEvents initWorld).db =
      [⟨1, 1, "Jane Doe", some "https://example.com/r/1", 2,
        "2025-06-01", "19:30", some ""⟩] from rfl]
    exact List.mem_singleton.mpr rfl
  exact ⟨_, hmem, db_records_link_notes_nonnull demoEvents _ hmem⟩

/-- A session waiting at the name step (date and time already recorded). -/
def sPending : Session :=
  { date := some "2025-06-01", time := some "19:30", step := some "full_name" }

/-- The session `sPending` after a "/start" message is consumed by the
pending name handler: the literal text is recorded as the name. -/
def sPendingDone : Session :=
  { date := some "2025-06-01", time := some "19:30", full_name := some "/start",
    step := some "num_people" }

/-- A world mid-way through the wizard: the name step's free-text handler is
registered and the session already holds date and time. -/
def wPending : World :=
  { available_time_slots := [(1, sPending)], registered := [(1, Handler.fullName)] }

/-- Counterexample for C7 as stated: with the name step's handler pending,
a "/start" message is consumed by that handler — the session survives (the
literal text "/start" is recorded as the name and the step advances) and the
main menu is never shown (the only message sent is the party-size prompt). -/
theorem start_consumed_by_pending_step_counterexample :
    lookupKey 1 (dispatch (Event.message 1 "/start" "Jane" none none allOk)
      wPending).1.available_time_slots = some sPendingDone ∧
    (dispatch (Event.message 1 "/start" "Jane" none none allOk) wPending).1.sent =
      [(1, peopleMsg)] := by
  exact ⟨by decide, by rfl⟩

/-- Claim C7 (amended): a "/start" message dispatched with no pending
free-text registration runs `send_welcome`, which deletes any existing
session (a no-op when none exists, not a fault), clears the registration,
and presents the main menu, leaving the user idle and other users' sessions
untouched; but while a free-text step registration is pending, the "/start"
text is consumed by the pending step handler as that field's value and the
session is not reset. -/
theorem start_resets_only_when_no_step_pending (w : World) (uid : Nat)
    (tgF : String) (tgL tgU : Option String) (eff : NotesEffects)
    (hreg : lookupKey uid w.registered = none) :
    dispatch (Event.message uid "/start" tgF tgL tgU eff) w =
      (send_welcome uid w, none) ∧
    lookupKey uid (send_welcome uid w).available_time_slots = none ∧
    lookupKey uid (send_welcome uid w).registered = none ∧
    (send_welcome uid w).sent = w.sent ++ [(uid, welcomeMsg)] ∧
    (send_welcome uid w).db = w.db ∧
    (lookupKey uid w.available_time_slots = none →
      (send_welcome uid w).available_time_slots = w.available_time_slots) ∧
    (∀ uid', uid' ≠ uid →
      lookupKey uid' (send_welcome uid w).available_time_slots =
        lookupKey uid' w.available_time_slots) ∧
    (∀ (w₂ : World) (s : Session),
      lookupKey uid w₂.registered = some Handler.fullName →
      lookupKey uid w₂.available_time_slots = some s →
      dispatch (Event.message uid "/start" tgF tgL tgU eff) w₂ =
        ({ w₂ with
           available_time_slots :=
             setKey uid
               { s with full_name := some (pyStrip "/start"), step := some "num_people" }
               w₂.available_time_slots
           sent := w₂.sent ++ [(uid, peopleMsg)]
           registered := delKey uid w₂.registered }, none)) := by
  refine ⟨?_, ?_, ?_, ?_, ?_, ?_, ?_, ?_⟩
  · simp [dispatch, hreg]
  · unfold send_welcome
    cases hL : lookupKey uid w.available_time_slots with
    | none => simp [hL]
    | some s => simp [hL, lookupKey_delKey_self]
  · exact lookupKey_delKey_self uid w.registered
  · rfl
  · rfl
  · intro h
    unfold send_welcome
    simp [h]
  · intro uid' hne
    unfold send_welcome
    cases hL : lookupKey uid w.available_time_slots with
    | none => simp [hL]
    | some s => simp [hL, lookupKey_delKey_ne uid' uid _ hne]
  · intro w₂ s h1 h2
    have hd : dispatch (Event.message uid "/start" tgF tgL tgU eff) w₂ =
        (process_full_name uid "/start"
          { w₂ with registered := delKey uid w₂.registered }, none) := by
      simp only [dispatch, h1]
    rw [hd]
    have h2' : lookupKey uid
        ({ w₂ with registered := delKey uid w₂.registered } : World).available_time_slots =
        some s := h2
    simp [process_full_name, h2']

/-- Witness for C7's amended theorem: a concrete reset with no pending step,
and the concrete pending-step instantiation. -/
theorem start_resets_only_when_no_step_pending_witness :
    dispatch (Event.message 1 "/start" "Jane" none none allOk) wEmpty1 =
      (send_welcome 1 wEmpty1, none) ∧
    lookupKey 1 (send_welcome 1 wEmpty1).available_time_slots = none ∧
    (send_welcome 1 wEmpty1).sent = [(1, welcomeMsg)] ∧
    dispatch (Event.message 1 "/start" "Jane" none none allOk) wPending =
      ({ wPending with
         available_time_slots :=
           setKey 1
             { sPending with full_name := some (pyStrip "/start"), step := some "num_people" }
             wPending.available_time_slots
         sent := wPending.sent ++ [(1, peopleMsg)]
         registered := delKey 1 wPending.registered }, none) := by
  have h := start_resets_only_when_no_step_pending wEmpty1 1 "Jane" none none allOk rfl
  refine ⟨h.1, h.2.1, ?_, ?_⟩
  · rw [h.2.2.2.1]
    rfl
  · exact h.2.2.2.2.2.2.2 wPending sPending rfl rfl
